import Mathlib

/-!
Verification of the syscall interpretation and mediation engine of `maybe`
(`src/maybe/syscall_filters.py`).

The embedding is shallow and follows the Python source line by line:

* External collaborators (the host filesystem's `abspath`/`exists`, the
  user/group databases `getpwuid`/`getgrgid`, and the terminal-styling
  helpers `T.red`, `T.underline`, ... together with `format_permissions`
  from `utilities.py`) are abstract functions gathered in an `Env`
  record; every theorem quantifies over them.
* The module-level mutable state (`next_file_descriptor`,
  `file_descriptors`) becomes an explicit `FDStore` value threaded
  through the functions that read or write it.  The Python dict is
  modelled as an association list where an update prepends a pair, and
  lookup returns the most recently inserted binding for a key.
* The `SYSCALL_FILTERS` registry is a literal `List SyscallFilter`; the
  per-entry lambdas extract decoded arguments from a `List Arg` exactly
  as the Python lambdas index `args`.
-/

/-- Decoded syscall arguments: each is a string (paths) or an integer
(descriptors, flags, modes, byte counts, owner/group ids). -/
inductive Arg where
  | str (s : String)
  | int (i : Int)
deriving DecidableEq, Repr

/-- `args[i]` as a string; decoding errors are the Tracer's concern
(spec 7b), so extraction is totalized with a default. -/
def argStr (args : List Arg) (i : Nat) : String :=
  match args.get? i with
  | some (Arg.str s) => s
  | _ => ""

/-- `args[i]` as an integer, totalized with a default. -/
def argInt (args : List Arg) (i : Nat) : Int :=
  match args.get? i with
  | some (Arg.int n) => n
  | _ => 0

/-- External collaborators of the engine, kept abstract: path
normalization and existence checks against the host filesystem,
identity resolution, and display-only text styling. -/
structure Env where
  abspath : String → String
  pathExists : String → Bool
  getpwuid : Int → String
  getgrgid : Int → String
  red : String → String
  green : String → String
  yellow : String → String
  cyan : String → String
  underline : String → String
  bold : String → String
  format_permissions : Int → String

/-- The FD Correlation Store: the globals `next_file_descriptor` and
`file_descriptors` of the source, made explicit. -/
structure FDStore where
  next_file_descriptor : Int
  file_descriptors : List (Int × String)
deriving DecidableEq, Repr

/-- Session-start state: `next_file_descriptor = 1000`,
`file_descriptors = {}` (source lines 62-65). -/
def initialStore : FDStore :=
  { next_file_descriptor := 1000, file_descriptors := [] }

/-- Dictionary lookup on the association-list model of the Python dict:
the most recently inserted binding wins. -/
def fdLookup (l : List (Int × String)) (fd : Int) : Option String :=
  (l.find? (fun e => e.1 == fd)).map (fun e => e.2)

/-- `os.path.basename`: everything after the last slash. -/
def basename (p : String) : String :=
  String.mk ((p.data.reverse.takeWhile (fun c => c ≠ '/')).reverse)

/-- `os.path.dirname`: everything up to the last slash, with trailing
slashes stripped unless the head is all slashes. -/
def dirname (p : String) : String :=
  let head := (p.data.reverse.dropWhile (fun c => c ≠ '/')).reverse
  if head ≠ [] ∧ ¬ head.all (fun c => c = '/') then
    String.mk ((head.reverse.dropWhile (fun c => c = '/')).reverse)
  else
    String.mk head

/-- Python's bitwise `&` on arbitrary-precision integers (two's
complement on the negatives), used for flag tests. -/
def intAnd : Int → Int → Int
  | Int.ofNat m, Int.ofNat n => Int.ofNat (m &&& n)
  | Int.ofNat m, Int.negSucc n => Int.ofNat (m - (m &&& n))
  | Int.negSucc m, Int.ofNat n => Int.ofNat (n - (n &&& m))
  | Int.negSucc m, Int.negSucc n => Int.negSucc (m ||| n)

instance : AndOp Int := ⟨intAnd⟩

/-- Linux `O_WRONLY`. -/
def O_WRONLY : Int := 1
/-- Linux `O_RDWR`. -/
def O_RDWR : Int := 2
/-- Linux `O_CREAT` (0o100). -/
def O_CREAT : Int := 64
/-- Linux `O_TRUNC` (0o1000). -/
def O_TRUNC : Int := 512
/-- Linux `O_APPEND` (0o2000). -/
def O_APPEND : Int := 1024
/-- `S_IFCHR` (0o020000). -/
def S_IFCHR : Int := 8192
/-- `S_IFBLK` (0o060000). -/
def S_IFBLK : Int := 24576
/-- `S_IFIFO` (0o010000). -/
def S_IFIFO : Int := 4096
/-- `S_IFSOCK` (0o140000). -/
def S_IFSOCK : Int := 49152

/-- `format_delete` (source lines 21-22). -/
def format_delete (env : Env) (path : String) : String :=
  env.red "delete" ++ " " ++ env.underline (env.abspath path)

/-- `format_move` (source lines 25-33). -/
def format_move (env : Env) (path_old path_new : String) : String :=
  let path_old := env.abspath path_old
  let path_new := env.abspath path_new
  if dirname path_old = dirname path_new then
    env.green "rename" ++ " " ++ env.underline path_old ++ " to " ++
      env.underline (basename path_new)
  else
    env.green "move" ++ " " ++ env.underline path_old ++ " to " ++
      env.underline path_new

/-- `format_change_permissions` (source lines 36-37). -/
def format_change_permissions (env : Env) (path : String) (permissions : Int) : String :=
  env.yellow "change permissions" ++ " of " ++ env.underline (env.abspath path) ++
    " to " ++ env.bold (env.format_permissions permissions)

/-- `format_change_owner` (source lines 40-50). -/
def format_change_owner (env : Env) (path : String) (owner group : Int) : String :=
  if owner = -1 then
    env.yellow "change group" ++ " of " ++ env.underline (env.abspath path) ++
      " to " ++ env.bold (env.getgrgid group)
  else if group = -1 then
    env.yellow "change owner" ++ " of " ++ env.underline (env.abspath path) ++
      " to " ++ env.bold (env.getpwuid owner)
  else
    env.yellow "change owner" ++ " of " ++ env.underline (env.abspath path) ++
      " to " ++ env.bold (env.getpwuid owner ++ ":" ++ env.getgrgid group)

/-- `format_create_directory` (source lines 53-54). -/
def format_create_directory (env : Env) (path : String) : String :=
  env.cyan "create directory" ++ " " ++ env.underline (env.abspath path)

/-- `format_create_link` (source lines 57-59). -/
def format_create_link (env : Env) (path_source path_target : String) (symbolic : Bool) : String :=
  let label := if symbolic then "create symbolic link" else "create hard link"
  env.cyan label ++ " from " ++ env.underline (env.abspath path_source) ++
    " to " ++ env.underline (env.abspath path_target)

/-- `get_next_file_descriptor` (source lines 68-72): returns the current
counter and bumps it. -/
def get_next_file_descriptor (s : FDStore) : Int × FDStore :=
  (s.next_file_descriptor,
   { s with next_file_descriptor := s.next_file_descriptor + 1 })

/-- `get_file_descriptor_path` (source lines 75-76): tracked path or the
placeholder `/dev/fd/<n>`. -/
def get_file_descriptor_path (s : FDStore) (file_descriptor : Int) : String :=
  (fdLookup s.file_descriptors file_descriptor).getD
    ("/dev/fd/" ++ toString file_descriptor)

/-- `allowed_files` (source line 79). -/
def allowed_files : List String := ["/dev/null", "/dev/zero", "/dev/tty"]

/-- `format_open` (source lines 82-91). -/
def format_open (env : Env) (path : String) (flags : Int) : Option String :=
  let path := env.abspath path
  if path ∈ allowed_files then
    none
  else if flags &&& O_CREAT ≠ 0 ∧ ¬ env.pathExists path then
    some (env.cyan "create file" ++ " " ++ env.underline path)
  else if flags &&& O_TRUNC ≠ 0 ∧ env.pathExists path then
    some (env.red "truncate file" ++ " " ++ env.underline path)
  else
    none

/-- `substitute_open` (source lines 94-104): possibly allocates and
records a synthetic descriptor; returns the substitute value and the
updated store. -/
def substitute_open (env : Env) (s : FDStore) (path : String) (flags : Int) :
    Option Int × FDStore :=
  let path := env.abspath path
  if path ∈ allowed_files then
    (none, s)
  else if flags &&& O_WRONLY ≠ 0 ∨ flags &&& O_RDWR ≠ 0 ∨ flags &&& O_APPEND ≠ 0 ∨
      (format_open env path flags).isSome then
    let r := get_next_file_descriptor s
    (some r.1,
     { r.2 with file_descriptors := (r.1, path) :: r.2.file_descriptors })
  else
    (none, s)

/-- `format_mknod` (source lines 107-122). -/
def format_mknod (env : Env) (path : String) (type : Int) : Option String :=
  let path := env.abspath path
  if env.pathExists path then
    none
  else if type &&& S_IFCHR ≠ 0 then
    some (env.cyan "create character special file" ++ " " ++ env.underline path)
  else if type &&& S_IFBLK ≠ 0 then
    some (env.cyan "create block special file" ++ " " ++ env.underline path)
  else if type &&& S_IFIFO ≠ 0 then
    some (env.cyan "create named pipe" ++ " " ++ env.underline path)
  else if type &&& S_IFSOCK ≠ 0 then
    some (env.cyan "create socket" ++ " " ++ env.underline path)
  else
    some (env.cyan "create file" ++ " " ++ env.underline path)

/-- `substitute_mknod` (source lines 125-126): `None` when the formatter
is `None`, else the constant 0.  It never touches the store. -/
def substitute_mknod (env : Env) (path : String) (type : Int) : Option Int :=
  match format_mknod env path type with
  | none => none
  | some _ => some 0

/-- `format_write` (source lines 129-134). -/
def format_write (env : Env) (s : FDStore) (file_descriptor byte_count : Int) :
    Option String :=
  match fdLookup s.file_descriptors file_descriptor with
  | some path =>
      some (env.red "write" ++ " " ++ env.bold (toString byte_count ++ " bytes") ++
        " to " ++ env.underline path)
  | none => none

/-- `substitute_write` (source lines 137-138). -/
def substitute_write (env : Env) (s : FDStore) (file_descriptor byte_count : Int) :
    Option Int :=
  match format_write env s file_descriptor byte_count with
  | none => none
  | some _ => some byte_count

/-- `substitute_dup` (source lines 141-148): `file_descriptor_new = none`
models the defaulted parameter (plain `dup`). -/
def substitute_dup (s : FDStore) (file_descriptor_old : Int)
    (file_descriptor_new : Option Int) : Option Int × FDStore :=
  match fdLookup s.file_descriptors file_descriptor_old with
  | none => (none, s)
  | some path =>
    match file_descriptor_new with
    | some fd_new =>
        (some fd_new, { s with file_descriptors := (fd_new, path) :: s.file_descriptors })
    | none =>
        let r := get_next_file_descriptor s
        (some r.1,
         { r.2 with file_descriptors := (r.1, path) :: r.2.file_descriptors })

/-- Python's bitwise `|` on arbitrary-precision integers. -/
def intOr : Int → Int → Int
  | Int.ofNat m, Int.ofNat n => Int.ofNat (m ||| n)
  | Int.ofNat m, Int.negSucc n => Int.negSucc (n - (n &&& m))
  | Int.negSucc m, Int.ofNat n => Int.negSucc (m - (m &&& n))
  | Int.negSucc m, Int.negSucc n => Int.negSucc (m &&& n)

instance : OrOp Int := ⟨intOr⟩

/-- `SyscallFilter` (source line 151): name, C signature, effect
formatter and return-value substituter.  The default substitute (source
line 154) returns the constant 0 and leaves the store unchanged. -/
structure SyscallFilter where
  name : String
  signature : String × List (String × String)
  format : Env → FDStore → List Arg → Option String
  substitute : Env → FDStore → List Arg → Option Int × FDStore :=
    fun _ s _ => (some 0, s)

/-- Registry entry for `unlink`. -/
def unlinkFilter : SyscallFilter :=
  { name := "unlink"
    signature := ("int", [("const char *", "pathname")])
    format := fun env _ args => some (format_delete env (argStr args 0)) }

/-- Registry entry for `unlinkat`. -/
def unlinkatFilter : SyscallFilter :=
  { name := "unlinkat"
    signature := ("int", [("int", "dirfd"), ("const char *", "pathname"), ("int", "flags")])
    format := fun env _ args => some (format_delete env (argStr args 1)) }

/-- Registry entry for `rmdir`. -/
def rmdirFilter : SyscallFilter :=
  { name := "rmdir"
    signature := ("int", [("const char *", "pathname")])
    format := fun env _ args => some (format_delete env (argStr args 0)) }

/-- Registry entry for `rename`. -/
def renameFilter : SyscallFilter :=
  { name := "rename"
    signature := ("int", [("const char *", "oldpath"), ("const char *", "newpath")])
    format := fun env _ args => some (format_move env (argStr args 0) (argStr args 1)) }

/-- Registry entry for `renameat`. -/
def renameatFilter : SyscallFilter :=
  { name := "renameat"
    signature := ("int", [("int", "olddirfd"), ("const char *", "oldpath"),
                          ("int", "newdirfd"), ("const char *", "newpath")])
    format := fun env _ args => some (format_move env (argStr args 1) (argStr args 3)) }

/-- Registry entry for `renameat2`. -/
def renameat2Filter : SyscallFilter :=
  { name := "renameat2"
    signature := ("int", [("int", "olddirfd"), ("const char *", "oldpath"),
                          ("int", "newdirfd"), ("const char *", "newpath"),
                          ("unsigned int", "flags")])
    format := fun env _ args => some (format_move env (argStr args 1) (argStr args 3)) }

/-- Registry entry for `chmod`. -/
def chmodFilter : SyscallFilter :=
  { name := "chmod"
    signature := ("int", [("const char *", "pathname"), ("mode_t", "mode")])
    format := fun env _ args =>
      some (format_change_permissions env (argStr args 0) (argInt args 1)) }

/-- Registry entry for `fchmod`: resolves the descriptor through the FD
Correlation Store. -/
def fchmodFilter : SyscallFilter :=
  { name := "fchmod"
    signature := ("int", [("int", "fd"), ("mode_t", "mode")])
    format := fun env s args =>
      some (format_change_permissions env
        (get_file_descriptor_path s (argInt args 0)) (argInt args 1)) }

/-- Registry entry for `fchmodat`. -/
def fchmodatFilter : SyscallFilter :=
  { name := "fchmodat"
    signature := ("int", [("int", "dirfd"), ("const char *", "pathname"),
                          ("mode_t", "mode"), ("int", "flags")])
    format := fun env _ args =>
      some (format_change_permissions env (argStr args 1) (argInt args 2)) }

/-- Registry entry for `chown`. -/
def chownFilter : SyscallFilter :=
  { name := "chown"
    signature := ("int", [("const char *", "pathname"), ("uid_t", "owner"), ("gid_t", "group")])
    format := fun env _ args =>
      some (format_change_owner env (argStr args 0) (argInt args 1) (argInt args 2)) }

/-- Registry entry for `fchown`. -/
def fchownFilter : SyscallFilter :=
  { name := "fchown"
    signature := ("int", [("int", "fd"), ("uid_t", "owner"), ("gid_t", "group")])
    format := fun env s args =>
      some (format_change_owner env
        (get_file_descriptor_path s (argInt args 0)) (argInt args 1) (argInt args 2)) }

/-- Registry entry for `lchown`. -/
def lchownFilter : SyscallFilter :=
  { name := "lchown"
    signature := ("int", [("const char *", "pathname"), ("uid_t", "owner"), ("gid_t", "group")])
    format := fun env _ args =>
      some (format_change_owner env (argStr args 0) (argInt args 1) (argInt args 2)) }

/-- Registry entry for `fchownat`. -/
def fchownatFilter : SyscallFilter :=
  { name := "fchownat"
    signature := ("int", [("int", "dirfd"), ("const char *", "pathname"),
                          ("uid_t", "owner"), ("gid_t", "group"), ("int", "flags")])
    format := fun env _ args =>
      some (format_change_owner env (argStr args 1) (argInt args 2) (argInt args 3)) }

/-- Registry entry for `mkdir`. -/
def mkdirFilter : SyscallFilter :=
  { name := "mkdir"
    signature := ("int", [("const char *", "pathname"), ("mode_t", "mode")])
    format := fun env _ args => some (format_create_directory env (argStr args 0)) }

/-- Registry entry for `mkdirat`. -/
def mkdiratFilter : SyscallFilter :=
  { name := "mkdirat"
    signature := ("int", [("int", "dirfd"), ("const char *", "pathname"), ("mode_t", "mode")])
    format := fun env _ args => some (format_create_directory env (argStr args 1)) }

/-- Registry entry for `link`. -/
def linkFilter : SyscallFilter :=
  { name := "link"
    signature := ("int", [("const char *", "oldpath"), ("const char *", "newpath")])
    format := fun env _ args =>
      some (format_create_link env (argStr args 1) (argStr args 0) false) }

/-- Registry entry for `linkat`. -/
def linkatFilter : SyscallFilter :=
  { name := "linkat"
    signature := ("int", [("int", "olddirfd"), ("const char *", "oldpath"),
                          ("int", "newdirfd"), ("const char *", "newpath"), ("int", "flags")])
    format := fun env _ args =>
      some (format_create_link env (argStr args 3) (argStr args 1) false) }

/-- Registry entry for `symlink`. -/
def symlinkFilter : SyscallFilter :=
  { name := "symlink"
    signature := ("int", [("const char *", "target"), ("const char *", "linkpath")])
    format := fun env _ args =>
      some (format_create_link env (argStr args 1) (argStr args 0) true) }

/-- Registry entry for `symlinkat`. -/
def symlinkatFilter : SyscallFilter :=
  { name := "symlinkat"
    signature := ("int", [("const char *", "target"), ("int", "newdirfd"),
                          ("const char *", "linkpath")])
    format := fun env _ args =>
      some (format_create_link env (argStr args 2) (argStr args 0) true) }

/-- Registry entry for `open`. -/
def openFilter : SyscallFilter :=
  { name := "open"
    signature := ("int", [("const char *", "pathname"), ("int", "flags")])
    format := fun env _ args => format_open env (argStr args 0) (argInt args 1)
    substitute := fun env s args => substitute_open env s (argStr args 0) (argInt args 1) }

/-- Registry entry for `creat`: sugar for `open` with
`O_CREAT | O_WRONLY | O_TRUNC`. -/
def creatFilter : SyscallFilter :=
  { name := "creat"
    signature := ("int", [("const char *", "pathname"), ("mode_t", "mode")])
    format := fun env _ args =>
      format_open env (argStr args 0) (O_CREAT ||| O_WRONLY ||| O_TRUNC)
    substitute := fun env s args =>
      substitute_open env s (argStr args 0) (O_CREAT ||| O_WRONLY ||| O_TRUNC) }

/-- Registry entry for `openat`. -/
def openatFilter : SyscallFilter :=
  { name := "openat"
    signature := ("int", [("int", "dirfd"), ("const char *", "pathname"), ("int", "flags")])
    format := fun env _ args => format_open env (argStr args 1) (argInt args 2)
    substitute := fun env s args => substitute_open env s (argStr args 1) (argInt args 2) }

/-- Registry entry for `mknod`. -/
def mknodFilter : SyscallFilter :=
  { name := "mknod"
    signature := ("int", [("const char *", "pathname"), ("mode_t", "mode")])
    format := fun env _ args => format_mknod env (argStr args 0) (argInt args 1)
    substitute := fun env s args =>
      (substitute_mknod env (argStr args 0) (argInt args 1), s) }

/-- Registry entry for `mknodat`. -/
def mknodatFilter : SyscallFilter :=
  { name := "mknodat"
    signature := ("int", [("int", "dirfd"), ("const char *", "pathname"), ("mode_t", "mode")])
    format := fun env _ args => format_mknod env (argStr args 1) (argInt args 2)
    substitute := fun env s args =>
      (substitute_mknod env (argStr args 1) (argInt args 2), s) }

/-- Registry entry for `mkfifo`: sugar for `mknod` with type `S_IFIFO`. -/
def mkfifoFilter : SyscallFilter :=
  { name := "mkfifo"
    signature := ("int", [("const char *", "pathname"), ("mode_t", "mode")])
    format := fun env _ args => format_mknod env (argStr args 0) S_IFIFO
    substitute := fun env s args => (substitute_mknod env (argStr args 0) S_IFIFO, s) }

/-- Registry entry for `mkfifoat`. -/
def mkfifoatFilter : SyscallFilter :=
  { name := "mkfifoat"
    signature := ("int", [("int", "dirfd"), ("const char *", "pathname"), ("mode_t", "mode")])
    format := fun env _ args => format_mknod env (argStr args 1) S_IFIFO
    substitute := fun env s args => (substitute_mknod env (argStr args 1) S_IFIFO, s) }

/-- Registry entry for `write`. -/
def writeFilter : SyscallFilter :=
  { name := "write"
    signature := ("ssize_t", [("int", "fd"), ("const void *", "buf"), ("size_t", "count")])
    format := fun env s args => format_write env s (argInt args 0) (argInt args 2)
    substitute := fun env s args =>
      (substitute_write env s (argInt args 0) (argInt args 2), s) }

/-- Registry entry for `pwrite`. -/
def pwriteFilter : SyscallFilter :=
  { name := "pwrite"
    signature := ("ssize_t", [("int", "fd"), ("const void *", "buf"),
                              ("size_t", "count"), ("off_t", "offset")])
    format := fun env s args => format_write env s (argInt args 0) (argInt args 2)
    substitute := fun env s args =>
      (substitute_write env s (argInt args 0) (argInt args 2), s) }

/-- Registry entry for `writev` (byte count imprecision inherited from
the source: reports `iovcnt`). -/
def writevFilter : SyscallFilter :=
  { name := "writev"
    signature := ("ssize_t", [("int", "fd"), ("const struct iovec *", "iov"), ("int", "iovcnt")])
    format := fun env s args => format_write env s (argInt args 0) (argInt args 2)
    substitute := fun env s args =>
      (substitute_write env s (argInt args 0) (argInt args 2), s) }

/-- Registry entry for `pwritev`. -/
def pwritevFilter : SyscallFilter :=
  { name := "pwritev"
    signature := ("ssize_t", [("int", "fd"), ("const struct iovec *", "iov"),
                              ("int", "iovcnt"), ("off_t", "offset")])
    format := fun env s args => format_write env s (argInt args 0) (argInt args 2)
    substitute := fun env s args =>
      (substitute_write env s (argInt args 0) (argInt args 2), s) }

/-- Registry entry for `dup`: no caller-specified target. -/
def dupFilter : SyscallFilter :=
  { name := "dup"
    signature := ("int", [("int", "oldfd")])
    format := fun _ _ _ => none
    substitute := fun _ s args => substitute_dup s (argInt args 0) none }

/-- Registry entry for `dup2`. -/
def dup2Filter : SyscallFilter :=
  { name := "dup2"
    signature := ("int", [("int", "oldfd"), ("int", "newfd")])
    format := fun _ _ _ => none
    substitute := fun _ s args => substitute_dup s (argInt args 0) (some (argInt args 1)) }

/-- Registry entry for `dup3`. -/
def dup3Filter : SyscallFilter :=
  { name := "dup3"
    signature := ("int", [("int", "oldfd"), ("int", "newfd"), ("int", "flags")])
    format := fun _ _ _ => none
    substitute := fun _ s args => substitute_dup s (argInt args 0) (some (argInt args 1)) }

/-- `SYSCALL_FILTERS` (source lines 156-353), in source order. -/
def SYSCALL_FILTERS : List SyscallFilter :=
  [unlinkFilter, unlinkatFilter, rmdirFilter,
   renameFilter, renameatFilter, renameat2Filter,
   chmodFilter, fchmodFilter, fchmodatFilter,
   chownFilter, fchownFilter, lchownFilter, fchownatFilter,
   mkdirFilter, mkdiratFilter,
   linkFilter, linkatFilter, symlinkFilter, symlinkatFilter,
   openFilter, creatFilter, openatFilter,
   mknodFilter, mknodatFilter, mkfifoFilter, mkfifoatFilter,
   writeFilter, pwriteFilter, writevFilter, pwritevFilter,
   dupFilter, dup2Filter, dup3Filter]

/-- Syscall names of the open/create family (the registry's
"Open/create file" section, which includes the `mknod*` entries). -/
def openCreateFamily : List String :=
  ["open", "creat", "openat", "mknod", "mknodat", "mkfifo", "mkfifoat"]

/-- Syscall names of the write family. -/
def writeFamily : List String := ["write", "pwrite", "writev", "pwritev"]

/-- Syscall names of the duplication family. -/
def dupFamily : List String := ["dup", "dup2", "dup3"]

/-- Syscall names of the special-file-creation family. -/
def mknodFamily : List String := ["mknod", "mknodat", "mkfifo", "mkfifoat"]

/-- A concrete environment for evaluation: identity path normalization
and styling, no path exists. -/
def envA : Env :=
  { abspath := id, pathExists := fun _ => false, getpwuid := fun _ => "alice",
    getgrgid := fun _ => "staff", red := id, green := id, yellow := id,
    cyan := id, underline := id, bold := id, format_permissions := fun _ => "rw-r--r--" }

/-- A concrete environment where exactly `/tmp/exists` exists. -/
def envB : Env := { envA with pathExists := fun p => p == "/tmp/exists" }

/-- A store tracking descriptor 1000 at `/tmp/x`. -/
def storeW : FDStore :=
  { next_file_descriptor := 1001, file_descriptors := [(1000, "/tmp/x")] }

/-- A store tracking descriptors 1000 and 1001. -/
def storeD : FDStore :=
  { next_file_descriptor := 1002,
    file_descriptors := [(1000, "/tmp/x"), (1001, "/tmp/y")] }

/-- Lookup after a dict update: the updated key now resolves to the new
value, every other key is unaffected. -/
theorem fdLookup_cons (k : Int) (p : String) (l : List (Int × String)) (fd : Int) :
    fdLookup ((k, p) :: l) fd = if fd = k then some p else fdLookup l fd := by
  by_cases h : fd = k
  · subst h
    simp [fdLookup, List.find?]
  · have hb : ((k, p).1 == fd) = false := by
      simpa using fun hkf => h hkf.symm
    simp [fdLookup, List.find?, hb, h]

/-- A dict update never makes a previously resolvable key unresolvable. -/
theorem fdLookup_cons_isSome (k : Int) (p : String) (l : List (Int × String)) (fd : Int)
    (h : (fdLookup l fd).isSome) : (fdLookup ((k, p) :: l) fd).isSome := by
  rw [fdLookup_cons]
  by_cases hk : fd = k <;> simp [hk, h]

/-- Store effect of `substitute_open`: the counter never decreases and
tracked descriptors stay tracked. -/
theorem substitute_open_store (env : Env) (s : FDStore) (path : String) (flags : Int) :
    s.next_file_descriptor ≤ (substitute_open env s path flags).2.next_file_descriptor ∧
    ∀ fd, (fdLookup s.file_descriptors fd).isSome →
      (fdLookup (substitute_open env s path flags).2.file_descriptors fd).isSome := by
  simp only [substitute_open, get_next_file_descriptor]
  split
  · exact ⟨le_refl _, fun fd h => h⟩
  · split
    · exact ⟨by simp, fun fd h => fdLookup_cons_isSome _ _ _ _ h⟩
    · exact ⟨le_refl _, fun fd h => h⟩

/-- Store effect of `substitute_dup`: the counter never decreases and
tracked descriptors stay tracked. -/
theorem substitute_dup_store (s : FDStore) (fd_old : Int) (fd_new : Option Int) :
    s.next_file_descriptor ≤ (substitute_dup s fd_old fd_new).2.next_file_descriptor ∧
    ∀ fd, (fdLookup s.file_descriptors fd).isSome →
      (fdLookup (substitute_dup s fd_old fd_new).2.file_descriptors fd).isSome := by
  unfold substitute_dup
  cases h : fdLookup s.file_descriptors fd_old with
  | none => exact ⟨le_refl _, fun fd hf => hf⟩
  | some p =>
    cases fd_new with
    | some n => exact ⟨le_refl _, fun fd hf => fdLookup_cons_isSome _ _ _ _ hf⟩
    | none =>
      exact ⟨by simp [get_next_file_descriptor], fun fd hf => fdLookup_cons_isSome _ _ _ _ hf⟩

/-- C7: for every pair `(old, new)` given to the move/rename formatter,
equal parent directories of the normalized paths yield the "rename"
label with only the destination's final component shown, and differing
parents yield the "move" label with the full normalized destination. -/
theorem move_rename_classification (env : Env) (path_old path_new : String) :
    (dirname (env.abspath path_old) = dirname (env.abspath path_new) →
      format_move env path_old path_new =
        env.green "rename" ++ " " ++ env.underline (env.abspath path_old) ++
          " to " ++ env.underline (basename (env.abspath path_new))) ∧
    (dirname (env.abspath path_old) ≠ dirname (env.abspath path_new) →
      format_move env path_old path_new =
        env.green "move" ++ " " ++ env.underline (env.abspath path_old) ++
          " to " ++ env.underline (env.abspath path_new)) := by
  constructor <;> intro h <;> simp [format_move, h]

/-- C7 witness: a same-parent pair renames showing only the final
component; a cross-parent pair moves showing the full path. -/
theorem move_rename_classification_witness :
    format_move envA "/a/b" "/a/c" = "rename /a/b to c" ∧
    format_move envA "/a/b" "/d/c" = "move /a/b to /d/c" := by
  constructor
  · rw [(move_rename_classification envA "/a/b" "/a/c").1 (by decide)]; rfl
  · rw [(move_rename_classification envA "/a/b" "/d/c").2 (by decide)]; rfl

/-- C8: ownership-change formatting: owner -1 labels "change group" and
shows only the resolved group name; group -1 (owner valid) labels
"change owner" and shows only the resolved owner name; both valid shows
`owner:group`. -/
theorem change_owner_labels (env : Env) (path : String) (owner group : Int) :
    (owner = -1 →
      format_change_owner env path owner group =
        env.yellow "change group" ++ " of " ++ env.underline (env.abspath path) ++
          " to " ++ env.bold (env.getgrgid group)) ∧
    (owner ≠ -1 → group = -1 →
      format_change_owner env path owner group =
        env.yellow "change owner" ++ " of " ++ env.underline (env.abspath path) ++
          " to " ++ env.bold (env.getpwuid owner)) ∧
    (owner ≠ -1 → group ≠ -1 →
      format_change_owner env path owner group =
        env.yellow "change owner" ++ " of " ++ env.underline (env.abspath path) ++
          " to " ++ env.bold (env.getpwuid owner ++ ":" ++ env.getgrgid group)) := by
  refine ⟨fun h => ?_, fun h1 h2 => ?_, fun h1 h2 => ?_⟩ <;>
    simp [format_change_owner, *]

/-- C8 witness: the three ownership-change shapes at concrete ids. -/
theorem change_owner_labels_witness :
    format_change_owner envA "/f" (-1) 20 = "change group of /f to staff" ∧
    format_change_owner envA "/f" 501 (-1) = "change owner of /f to alice" ∧
    format_change_owner envA "/f" 501 20 = "change owner of /f to alice:staff" := by
  refine ⟨?_, ?_, ?_⟩
  · rw [(change_owner_labels envA "/f" (-1) 20).1 rfl]; rfl
  · rw [(change_owner_labels envA "/f" 501 (-1)).2.1 (by decide) rfl]; rfl
  · rw [(change_owner_labels envA "/f" 501 20).2.2 (by decide) (by decide)]; rfl

/-- C5: the write formatter is null exactly when the descriptor is
untracked; on a descriptor tracked to `P` with count `n` the description
reports `n` bytes written to `P` and the substitute value is `n`. -/
theorem write_format_substitute (env : Env) (s : FDStore) (fd n : Int) :
    (format_write env s fd n = none ↔ fdLookup s.file_descriptors fd = none) ∧
    ∀ P, fdLookup s.file_descriptors fd = some P →
      format_write env s fd n =
        some (env.red "write" ++ " " ++ env.bold (toString n ++ " bytes") ++
          " to " ++ env.underline P) ∧
      substitute_write env s fd n = some n := by
  cases h : fdLookup s.file_descriptors fd <;>
    simp [format_write, substitute_write, h]

/-- C5 witness: on a store tracking descriptor 1000 at `/tmp/x`, a write
of 42 bytes formats as exactly that and substitutes 42. -/
theorem write_format_substitute_witness :
    format_write envA storeW 1000 42 = some "write 42 bytes to /tmp/x" ∧
    substitute_write envA storeW 1000 42 = some 42 := by
  have h := (write_format_substitute envA storeW 1000 42).2 "/tmp/x" (by decide)
  exact ⟨by rw [h.1]; rfl, h.2⟩

/-- C6: duplication with an untracked source leaves the store unchanged
and is not mediated (substitute null); with a source tracked to `P` the
destination descriptor (caller-specified, or the freshly allocated
counter value for plain `dup`) afterwards resolves to `P` and is the
substitute value; an untracked descriptor resolves through
`get_file_descriptor_path` to the placeholder `/dev/fd/<n>`. -/
theorem dup_store_update (s : FDStore) (fd_old fd_new n : Int) :
    (fdLookup s.file_descriptors fd_old = none →
      substitute_dup s fd_old none = (none, s) ∧
      substitute_dup s fd_old (some fd_new) = (none, s)) ∧
    (∀ P, fdLookup s.file_descriptors fd_old = some P →
      (substitute_dup s fd_old (some fd_new)).1 = some fd_new ∧
      fdLookup (substitute_dup s fd_old (some fd_new)).2.file_descriptors fd_new = some P ∧
      (substitute_dup s fd_old none).1 = some s.next_file_descriptor ∧
      fdLookup (substitute_dup s fd_old none).2.file_descriptors
        s.next_file_descriptor = some P) ∧
    (fdLookup s.file_descriptors n = none →
      get_file_descriptor_path s n = "/dev/fd/" ++ toString n) := by
  refine ⟨fun h => ?_, fun P h => ?_, fun h => ?_⟩
  · simp [substitute_dup, h]
  · simp [substitute_dup, h, get_next_file_descriptor, fdLookup_cons]
  · simp [get_file_descriptor_path, h]

/-- C6 witness: duplicating untracked 99 does nothing; `dup2(1000, 7)`
on a store tracking 1000 at `/tmp/x` maps 7 to `/tmp/x` and returns 7;
untracked 99 resolves to the placeholder `/dev/fd/99`. -/
theorem dup_store_update_witness :
    substitute_dup storeW 99 (some 7) = (none, storeW) ∧
    (substitute_dup storeW 1000 (some 7)).1 = some 7 ∧
    fdLookup (substitute_dup storeW 1000 (some 7)).2.file_descriptors 7 = some "/tmp/x" ∧
    get_file_descriptor_path storeW 99 = "/dev/fd/99" := by
  refine ⟨((dup_store_update storeW 99 7 0).1 (by decide)).2, ?_, ?_, ?_⟩
  · exact ((dup_store_update storeW 1000 7 0).2.1 "/tmp/x" (by decide)).1
  · exact ((dup_store_update storeW 1000 7 0).2.1 "/tmp/x" (by decide)).2.1
  · exact (dup_store_update storeW 1000 7 99).2.2 (by decide)

/-- C10: `dup2`/`dup3` with a tracked source and an already-tracked
caller-specified destination silently overwrites the destination's
mapping with the source's path, changes no other entry, keeps the
allocation counter, and substitutes the destination descriptor. -/
theorem dup2_overwrite_frame (s : FDStore) (fd_old fd_new : Int) (P Q : String)
    (h1 : fdLookup s.file_descriptors fd_old = some P)
    (h2 : fdLookup s.file_descriptors fd_new = some Q) :
    (substitute_dup s fd_old (some fd_new)).1 = some fd_new ∧
    (substitute_dup s fd_old (some fd_new)).2.next_file_descriptor =
      s.next_file_descriptor ∧
    fdLookup (substitute_dup s fd_old (some fd_new)).2.file_descriptors fd_new = some P ∧
    ∀ k, k ≠ fd_new →
      fdLookup (substitute_dup s fd_old (some fd_new)).2.file_descriptors k =
        fdLookup s.file_descriptors k := by
  refine ⟨by simp [substitute_dup, h1], by simp [substitute_dup, h1], ?_, fun k hk => ?_⟩
  · simp [substitute_dup, h1, fdLookup_cons]
  · simp [substitute_dup, h1, fdLookup_cons, hk]

/-- C10 witness: on a store tracking 1000 at `/tmp/x` and 1001 at
`/tmp/y`, `dup2(1000, 1001)` overwrites 1001 to `/tmp/x`, keeps the
counter and the entry for 1000, and returns 1001. -/
theorem dup2_overwrite_frame_witness :
    (substitute_dup storeD 1000 (some 1001)).1 = some 1001 ∧
    (substitute_dup storeD 1000 (some 1001)).2.next_file_descriptor = 1002 ∧
    fdLookup (substitute_dup storeD 1000 (some 1001)).2.file_descriptors 1001 =
      some "/tmp/x" ∧
    fdLookup (substitute_dup storeD 1000 (some 1001)).2.file_descriptors 1000 =
      fdLookup storeD.file_descriptors 1000 := by
  have h := dup2_overwrite_frame storeD 1000 1001 "/tmp/x" "/tmp/y" (by decide) (by decide)
  exact ⟨h.1, h.2.1, h.2.2.1, h.2.2.2 1000 (by decide)⟩

/-- C3: the open-family formatter (shared by `open`/`openat`, and by
`creat` with the fixed flags `O_CREAT | O_WRONLY | O_TRUNC`) produces a
description only when the flags include `O_CREAT` and the normalized
path does not exist, or include `O_TRUNC` and it does exist; a
normalized path in the device allow-list is never described, for every
flag combination.  The last conjunct records that the three registry
entries delegate to `format_open`. -/
theorem open_format_conditions (env : Env) (path : String) (flags : Int) :
    (format_open env path flags ≠ none →
      (flags &&& O_CREAT ≠ 0 ∧ env.pathExists (env.abspath path) = false) ∨
      (flags &&& O_TRUNC ≠ 0 ∧ env.pathExists (env.abspath path) = true)) ∧
    (env.abspath path ∈ allowed_files → format_open env path flags = none) ∧
    (∀ s dirfd,
      openFilter.format env s [Arg.str path, Arg.int flags] =
        format_open env path flags ∧
      openatFilter.format env s [Arg.int dirfd, Arg.str path, Arg.int flags] =
        format_open env path flags ∧
      creatFilter.format env s [Arg.str path, Arg.int 438] =
        format_open env path (O_CREAT ||| O_WRONLY ||| O_TRUNC)) := by
  refine ⟨fun hd => ?_, fun hm => by simp [format_open, hm], fun s dirfd => ⟨rfl, rfl, rfl⟩⟩
  by_cases hC : flags &&& O_CREAT ≠ 0 ∧ env.pathExists (env.abspath path) = false
  · exact Or.inl hC
  · by_cases hT : flags &&& O_TRUNC ≠ 0 ∧ env.pathExists (env.abspath path) = true
    · exact Or.inr hT
    · exfalso
      apply hd
      cases hE : env.pathExists (env.abspath path) with
      | false =>
        have h1 : flags &&& O_CREAT = 0 := by
          by_contra hne
          exact hC ⟨hne, hE⟩
        simp [format_open, hE, h1]
      | true =>
        have h2 : flags &&& O_TRUNC = 0 := by
          by_contra hne
          exact hT ⟨hne, hE⟩
        simp [format_open, hE, h2]

/-- C3 witness: `/dev/null` is never described even with create flags;
a create of a non-existing path is described, satisfying the disjunct. -/
theorem open_format_conditions_witness :
    format_open envA "/dev/null" 64 = none ∧
    ((64 &&& O_CREAT ≠ 0 ∧ envA.pathExists (envA.abspath "/tmp/n") = false) ∨
      (64 &&& O_TRUNC ≠ 0 ∧ envA.pathExists (envA.abspath "/tmp/n") = true)) :=
  ⟨(open_format_conditions envA "/dev/null" 64).2.1 (by decide),
   (open_format_conditions envA "/tmp/n" 64).1 (by decide)⟩

/-- C4: `substitute_open` performs no store update on an allow-listed
normalized path; otherwise exactly when the flags request write-capable
access (`O_WRONLY`, `O_RDWR` or `O_APPEND`) or the formatter is
non-null, it allocates the counter value as a fresh descriptor, records
it as mapping to the normalized path (all other entries unchanged), and
returns it; in all remaining cases the store is untouched and the
substitute is null. -/
theorem open_substitute_tracking (env : Env) (s : FDStore) (path : String) (flags : Int) :
    (env.abspath path ∈ allowed_files → substitute_open env s path flags = (none, s)) ∧
    (env.abspath path ∉ allowed_files →
      ((flags &&& O_WRONLY ≠ 0 ∨ flags &&& O_RDWR ≠ 0 ∨ flags &&& O_APPEND ≠ 0 ∨
          format_open env (env.abspath path) flags ≠ none) →
        (substitute_open env s path flags).1 = some s.next_file_descriptor ∧
        (substitute_open env s path flags).2.next_file_descriptor =
          s.next_file_descriptor + 1 ∧
        fdLookup (substitute_open env s path flags).2.file_descriptors
          s.next_file_descriptor = some (env.abspath path) ∧
        ∀ k, k ≠ s.next_file_descriptor →
          fdLookup (substitute_open env s path flags).2.file_descriptors k =
            fdLookup s.file_descriptors k) ∧
      (¬ (flags &&& O_WRONLY ≠ 0 ∨ flags &&& O_RDWR ≠ 0 ∨ flags &&& O_APPEND ≠ 0 ∨
          format_open env (env.abspath path) flags ≠ none) →
        substitute_open env s path flags = (none, s))) := by
  refine ⟨fun hm => by simp [substitute_open, hm], fun hm => ⟨fun hc => ?_, fun hc => ?_⟩⟩
  · have hc' : (flags &&& O_WRONLY ≠ 0 ∨ flags &&& O_RDWR ≠ 0 ∨ flags &&& O_APPEND ≠ 0 ∨
        (format_open env (env.abspath path) flags).isSome) := by
      simpa [Option.isSome_iff_ne_none] using hc
    refine ⟨?_, ?_, ?_, fun k hk => ?_⟩
    · simp [substitute_open, hm, hc', get_next_file_descriptor]
    · simp [substitute_open, hm, hc', get_next_file_descriptor]
    · simp [substitute_open, hm, hc', get_next_file_descriptor, fdLookup_cons]
    · simp [substitute_open, hm, hc', get_next_file_descriptor, fdLookup_cons, hk]
  · have hc' : ¬ (flags &&& O_WRONLY ≠ 0 ∨ flags &&& O_RDWR ≠ 0 ∨ flags &&& O_APPEND ≠ 0 ∨
        (format_open env (env.abspath path) flags).isSome) := by
      simpa [Option.isSome_iff_ne_none] using hc
    simp [substitute_open, hm, hc']

/-- C4 witness: opening `/dev/null` is untracked; creating `/tmp/n`
(read-only `O_CREAT`, formatter non-null) allocates descriptor 1000
mapping to `/tmp/n`; a plain read-only open of `/tmp/n` is untracked. -/
theorem open_substitute_tracking_witness :
    substitute_open envA initialStore "/dev/null" 64 = (none, initialStore) ∧
    (substitute_open envA initialStore "/tmp/n" 64).1 = some 1000 ∧
    fdLookup (substitute_open envA initialStore "/tmp/n" 64).2.file_descriptors 1000 =
      some "/tmp/n" ∧
    substitute_open envA initialStore "/tmp/n" 0 = (none, initialStore) := by
  refine ⟨(open_substitute_tracking envA initialStore "/dev/null" 64).1 (by decide),
    ?_, ?_, ?_⟩
  · exact (((open_substitute_tracking envA initialStore "/tmp/n" 64).2 (by decide)).1
      (by decide)).1
  · exact (((open_substitute_tracking envA initialStore "/tmp/n" 64).2 (by decide)).1
      (by decide)).2.2.1
  · exact ((open_substitute_tracking envA initialStore "/tmp/n" 0).2 (by decide)).2
      (by decide)

/-- When the mknod formatter speaks, the mknod substitute is 0. -/
theorem substitute_mknod_of_format (env : Env) (path : String) (type : Int)
    (h : format_mknod env path type ≠ none) :
    substitute_mknod env path type = some 0 := by
  unfold substitute_mknod
  cases heq : format_mknod env path type with
  | none => exact absurd heq h
  | some d => rfl

/-- C1 counterexample: `mknod("/tmp/p", S_IFIFO)` on a fresh session is
mediation-worthy (the formatter is non-null), yet the substitute is the
constant 0 with the store returned unchanged — still the initial store,
whose counter is 1000 and whose mapping is empty — so no synthetic
descriptor is allocated and no `descriptor -> path` mapping is
recorded, contrary to the claim. -/
theorem mknod_claim_counterexample :
    mknodFilter.format envA initialStore [Arg.str "/tmp/p", Arg.int 4096] ≠ none ∧
    mknodFilter.substitute envA initialStore [Arg.str "/tmp/p", Arg.int 4096] =
      (some 0, initialStore) ∧
    initialStore.next_file_descriptor = 1000 ∧
    initialStore.file_descriptors = [] := by
  refine ⟨by decide, by decide, rfl, rfl⟩

/-- C1 amended: for every special-file-creation entry (`mknod`,
`mknodat`, `mkfifo`, `mkfifoat`) whose formatter produces a non-null
description, the substitute value is the syscall's success constant 0,
and the FD Correlation Store is never touched. -/
theorem mknod_substitute_returns_zero :
    ∀ f ∈ SYSCALL_FILTERS, f.name ∈ mknodFamily →
      ∀ env s args,
        (f.format env s args ≠ none → (f.substitute env s args).1 = some 0) ∧
        (f.substitute env s args).2 = s := by
  intro f hf hm env s args
  fin_cases hf <;>
    first
      | exact ⟨fun h => substitute_mknod_of_format _ _ _ h, rfl⟩
      | exact absurd (by decide : ¬ _ ∈ mknodFamily) (fun hn => hn hm)

/-- C1 amended witness: `mknodat` of a fresh fifo path substitutes 0 and
leaves the store alone. -/
theorem mknod_substitute_returns_zero_witness :
    (mknodatFilter.substitute envA initialStore
      [Arg.int (-100), Arg.str "/tmp/q", Arg.int 4096]).1 = some 0 ∧
    (mknodatFilter.substitute envA initialStore
      [Arg.int (-100), Arg.str "/tmp/q", Arg.int 4096]).2 = initialStore :=
  ⟨(mknod_substitute_returns_zero mknodatFilter (by simp [SYSCALL_FILTERS]) (by decide)
      envA initialStore [Arg.int (-100), Arg.str "/tmp/q", Arg.int 4096]).1 (by decide),
   (mknod_substitute_returns_zero mknodatFilter (by simp [SYSCALL_FILTERS]) (by decide)
      envA initialStore [Arg.int (-100), Arg.str "/tmp/q", Arg.int 4096]).2⟩

/-- C2: every registry entry outside the open/create, write and
duplication families substitutes the constant 0 (success) and leaves
the store unchanged, for every environment, store and argument tuple. -/
theorem default_substitute_zero :
    ∀ f ∈ SYSCALL_FILTERS,
      f.name ∉ openCreateFamily → f.name ∉ writeFamily → f.name ∉ dupFamily →
      ∀ env s args, f.substitute env s args = (some 0, s) := by
  intro f hf
  fin_cases hf <;> intro h1 h2 h3 env s args <;>
    first
      | rfl
      | exact absurd (by decide) h1
      | exact absurd (by decide) h2
      | exact absurd (by decide) h3

/-- C2 witness: `unlink`'s substitute is 0 with the store unchanged. -/
theorem default_substitute_zero_witness :
    unlinkFilter.substitute envA initialStore [Arg.str "/tmp/x"] = (some 0, initialStore) :=
  default_substitute_zero unlinkFilter (by simp [SYSCALL_FILTERS])
    (by decide) (by decide) (by decide) envA initialStore [Arg.str "/tmp/x"]

/-- C9: within a session the synthetic-descriptor allocator starts at
1000; an allocation returns the current counter and strictly increases
it (so the returned value is below every later counter value and the
same integer is never handed out twice); and no registry operation ever
decreases the counter or removes a tracked descriptor from the FD
Correlation Store. -/
theorem allocator_monotone_store_grows :
    initialStore.next_file_descriptor = 1000 ∧
    (∀ s : FDStore,
      (get_next_file_descriptor s).1 = s.next_file_descriptor ∧
      (get_next_file_descriptor s).2.next_file_descriptor = s.next_file_descriptor + 1 ∧
      (get_next_file_descriptor s).1 < (get_next_file_descriptor s).2.next_file_descriptor) ∧
    (∀ f ∈ SYSCALL_FILTERS, ∀ env s args,
      s.next_file_descriptor ≤ (f.substitute env s args).2.next_file_descriptor ∧
      ∀ fd, (fdLookup s.file_descriptors fd).isSome →
        (fdLookup (f.substitute env s args).2.file_descriptors fd).isSome) := by
  refine ⟨rfl, fun s => ⟨rfl, rfl, by simp [get_next_file_descriptor]⟩, fun f hf env s args => ?_⟩
  fin_cases hf <;>
    first
      | exact ⟨le_refl _, fun fd h => h⟩
      | exact substitute_open_store _ _ _ _
      | exact substitute_dup_store _ _ _

/-- C9 witness: `dup` of tracked descriptor 1000 never lowers the
counter and keeps 1000 tracked. -/
theorem allocator_monotone_store_grows_witness :
    storeW.next_file_descriptor ≤
      (dupFilter.substitute envA storeW [Arg.int 1000]).2.next_file_descriptor ∧
    (fdLookup (dupFilter.substitute envA storeW
      [Arg.int 1000]).2.file_descriptors 1000).isSome :=
  ⟨(allocator_monotone_store_grows.2.2 dupFilter (by simp [SYSCALL_FILTERS])
      envA storeW [Arg.int 1000]).1,
   (allocator_monotone_store_grows.2.2 dupFilter (by simp [SYSCALL_FILTERS])
      envA storeW [Arg.int 1000]).2 1000 (by decide)⟩
